import Mathlib

/-!
Verification of the recording-session lifecycle of the Virtual Studio Node
Discord bot (`scripts/enhanced-bot.py`) and of the `.env` rewriting routine
of `scripts/configure-bot-name.py`.

Shallow embedding conventions:
* The process-wide `recording_state` dict becomes the `RecordingState`
  structure; Python `None` becomes `Option.none`.
* `datetime.now()` values are modelled as abstract `Nat` timestamps; the
  `strftime` stems derived from them are modelled by an injective rendering.
* External collaborators (OBS recorder, transcript generator, GitHub,
  YouTube, S3/rclone transfers) are request/response calls whose outcomes
  are passed to the handlers as explicit parameters, mirroring the booleans
  and optional identifiers the Python wrappers return.
* `ctx.send(...)` effects are recorded as a list of `BotMessage` events, one
  constructor per send site, carrying the data the rendered text depends on.
-/

/-- Embeds the process-wide `recording_state` dict
(`enhanced-bot.py`, lines 70-79). -/
structure RecordingState where
  active : Bool
  start_time : Option Nat
  duration_minutes : Int
  recording_filename : Option String
  participants : List String
  youtube_upload_id : Option String
  github_commit_url : Option String
  transcript_path : Option String
deriving Repr, DecidableEq

/-- The state the module initialises at import time: every field at its
empty default (`enhanced-bot.py`, lines 70-79). -/
def initial_recording_state : RecordingState :=
  { active := false
    start_time := none
    duration_minutes := 0
    recording_filename := none
    participants := []
    youtube_upload_id := none
    github_commit_url := none
    transcript_path := none }

/-- The slice of the Discord `ctx` object the handlers read. -/
structure Ctx where
  guild : Option String
  channel_name : String
  author_display_name : String
deriving Repr, DecidableEq

/-- One constructor per `ctx.send` site of `enhanced-bot.py`; rendered
message payloads are carried as data. -/
inductive BotMessage where
  /-- line 371: usage help when no subcommand is given -/
  | usage_help
  /-- line 385: unknown subcommand -/
  | unknown_subcommand (sub : String)
  /-- line 390: warning, recording already in progress -/
  | already_recording
  /-- line 396: OBS start failed -/
  | obs_start_failed
  /-- line 416: start success, text is `start_msg + minutes_str` -/
  | recording_started (text : String)
  /-- line 422: automatic-timer expiry notice -/
  | time_limit_reached
  /-- line 434: warning, no recording in progress -/
  | no_recording_in_progress
  /-- line 440: OBS stop failed -/
  | obs_stop_failed
  /-- line 456: stop success, carries the elapsed duration in seconds -/
  | recording_stopped (duration : Nat)
  /-- line 470: pipeline banner -/
  | processing_starting
  /-- line 476: recording artifact missing -/
  | recording_file_not_found
  /-- line 506: GitHub commit notification, rendered template -/
  | github_commit_msg (text : String)
  /-- line 519: video-upload notification, rendered template -/
  | upload_success_msg (text : String)
  /-- line 529: cloud-upload notification, rendered template -/
  | cloud_upload_msg (text : String)
  /-- line 532: final pipeline notification -/
  | processing_complete
  /-- line 542: status while idle -/
  | status_not_active
  /-- line 559: status while recording, rendered text -/
  | status_active (text : String)
  /-- line 569: no recordings available for manual upload -/
  | no_recordings_found
  /-- line 576: listing of recent recordings -/
  | available_recordings (names : List String)
  /-- line 579: manual-upload placeholder notice -/
  | upload_ready
deriving Repr, DecidableEq

/-- `prompts.get(key, dflt)` on the loaded prompts dict. -/
def prompts_get (prompts : List (String × String)) (key dflt : String) : String :=
  match prompts.lookup key with
  | some v => v
  | none => dflt

/-- Replace every occurrence of `pat` in a character list by `val`,
scanning left to right without re-scanning the replacement, as Python's
substitution does. `fuel` bounds the recursion; one unit per examined
position suffices because each step consumes at least one character of the
input when `pat` is non-empty. -/
def replace_fuel (pat val : List Char) : Nat → List Char → List Char
  | _, [] => []
  | 0, l => l
  | fuel + 1, c :: cs =>
    if pat.isPrefixOf (c :: cs) ∧ pat ≠ [] then
      val ++ replace_fuel pat val fuel (List.drop pat.length (c :: cs))
    else
      c :: replace_fuel pat val fuel cs

/-- Embeds Python `template.format(channel_name=...)` for the
single-placeholder templates used by the bot: substitute every occurrence
of the (non-empty) placeholder by the value. -/
def py_format (template placeholder value : String) : String :=
  ⟨replace_fuel placeholder.data value.data template.data.length template.data⟩

/-- Abstracts `datetime.now().strftime('%Y-%m-%d_%H-%M-%S')`
(line 404) as an injective rendering of the model timestamp. -/
def strftime_stem (now : Nat) : String :=
  toString now

/-- The rendered start message of line 413:
`prompts.get('recording_start', 'Recording started').format(channel_name=...)`. -/
def render_start_msg (prompts : List (String × String)) (channel : String) : String :=
  py_format (prompts_get prompts "recording_start" "Recording started")
    "\x7bchannel_name\x7d" channel

/-- Result of one run of `handle_record_start` (lines 387-429):
the state afterwards, the messages sent, whether the OBS recorder's
start operation was invoked, and the delay in minutes of the scheduled
automatic stop (the inline `asyncio.sleep` of line 420), if any. -/
structure StartResult where
  state : RecordingState
  messages : List BotMessage
  obs_start_called : Bool
  timer_scheduled : Option Int
deriving Repr, DecidableEq

/-- Embeds `handle_record_start` (lines 387-429). `obs_start_ok` is the
boolean returned by `obs_controller.start_recording()`. -/
def handle_record_start (s : RecordingState) (ctx : Ctx) (minutes : Int)
    (prompts : List (String × String)) (obs_start_ok : Bool) (now : Nat) :
    StartResult :=
  if s.active then
    { state := s
      messages := [.already_recording]
      obs_start_called := false
      timer_scheduled := none }
  else if !obs_start_ok then
    { state := s
      messages := [.obs_start_failed]
      obs_start_called := true
      timer_scheduled := none }
  else
    let s' : RecordingState :=
      { s with
        active := true
        start_time := some now
        duration_minutes := minutes
        recording_filename := some (strftime_stem now)
        participants := []
        youtube_upload_id := none
        github_commit_url := none
        transcript_path := none }
    let minutes_str := if minutes > 0 then " for " ++ toString minutes ++ " minutes" else ""
    let start_msg := render_start_msg prompts ctx.channel_name
    { state := s'
      messages := [.recording_started (start_msg ++ minutes_str)]
      obs_start_called := true
      timer_scheduled := if minutes > 0 then some minutes else none }

/-- Result of one run of `handle_record_stop` (lines 431-465):
`pipeline_spawned` is `some captured` when line 459 created the
fire-and-forget `process_recording_pipeline(recording_filename, ctx)` task,
carrying the filename stem captured at stop time. -/
structure StopResult where
  state : RecordingState
  messages : List BotMessage
  obs_stop_called : Bool
  pipeline_spawned : Option (Option String)
deriving Repr, DecidableEq

/-- Embeds `handle_record_stop` (lines 431-465). `obs_stop_ok` is the
boolean returned by `obs_controller.stop_recording()`. -/
def handle_record_stop (s : RecordingState) (obs_stop_ok : Bool) (now : Nat) :
    StopResult :=
  if !s.active then
    { state := s
      messages := [.no_recording_in_progress]
      obs_stop_called := false
      pipeline_spawned := none }
  else if !obs_stop_ok then
    { state := s
      messages := [.obs_stop_failed]
      obs_stop_called := true
      pipeline_spawned := none }
  else
    let duration := now - s.start_time.getD 0
    let recording_filename := s.recording_filename
    let s' : RecordingState :=
      { s with
        active := false
        start_time := none
        duration_minutes := 0
        recording_filename := none }
    { state := s'
      messages := [.recording_stopped duration]
      obs_stop_called := true
      pipeline_spawned := some recording_filename }

/-- Embeds the automatic-stop continuation of `handle_record_start`
(lines 420-423): after the sleep, if a recording is still active the stop
transition is triggered with a notice, otherwise nothing happens. The second
component reports whether the automatic stop was triggered. -/
def timer_fire (s : RecordingState) (obs_stop_ok : Bool) (now : Nat) :
    StopResult × Bool :=
  if s.active then
    let r := handle_record_stop s obs_stop_ok now
    ({ r with messages := .time_limit_reached :: r.messages }, true)
  else
    ({ state := s
       messages := []
       obs_stop_called := false
       pipeline_spawned := none }, false)

/-- The cloud-storage slice of `Config` (lines 55-56): `S3_BUCKET` and
`RCLONE_REMOTE`, each absent when unset in the environment. -/
structure CloudConfig where
  s3_bucket : Option String
  rclone_remote : Option String
deriving Repr, DecidableEq

/-- Embeds `CloudUploader.upload_to_s3` (lines 278-301): returns `False`
immediately when no bucket is configured; otherwise the boto3 transfer
outcome is passed in as `transfer`, every exception being caught and mapped
to `False`, so the call always returns a plain boolean. -/
def upload_to_s3 (cfg : CloudConfig) (transfer : Except String Unit) : Bool :=
  match cfg.s3_bucket with
  | none => false
  | some _ =>
    match transfer with
    | .ok _ => true
    | .error _ => false

/-- Embeds `CloudUploader.upload_to_rclone` (lines 303-326): returns `False`
immediately when no remote is configured; otherwise `transfer` carries
whether the `rclone copy` subprocess exited with code 0, every exception
being caught and mapped to `False`. -/
def upload_to_rclone (cfg : CloudConfig) (transfer : Except String Bool) : Bool :=
  match cfg.rclone_remote with
  | none => false
  | some _ =>
    match transfer with
    | .ok rc_zero => rc_zero
    | .error _ => false

/-- Collaborator outcomes consumed by one run of
`process_recording_pipeline`: whether the glob of line 473 found the
artifact, the results of `generate_transcript`, `upload_transcript` and
`upload_video`, and the raw transfer outcomes fed to the cloud uploaders. -/
structure PipelineEnv where
  artifact_found : Bool
  transcript_result : Option String
  github_result : Option String
  youtube_result : Option String
  s3_transfer : Except String Unit
  rclone_transfer : Except String Bool

/-- Result of one run of `process_recording_pipeline`. -/
structure PipelineResult where
  state : RecordingState
  messages : List BotMessage
deriving Repr, DecidableEq

/-- Python `str(x)` on an optional string, as used by the f-string of
line 473 when the captured filename is `None`. -/
def py_str_opt (x : Option String) : String :=
  match x with
  | some v => v
  | none => "None"

/-- Embeds `process_recording_pipeline` (lines 467-537), acting on the
live `recording_state` record `s` with the filename stem `filename`
captured at stop time. Mirrors the source exactly: the GitHub commit is
attempted only when transcript generation succeeded, the video upload and
cloud uploads are attempted regardless, and the three post-processing
fields of `recording_state` are written on the corresponding successes
(lines 485, 502, 515). -/
def process_recording_pipeline (s : RecordingState) (filename : Option String)
    (env : PipelineEnv) (cfg : CloudConfig) (prompts : List (String × String)) :
    PipelineResult :=
  let msgs0 : List BotMessage := [.processing_starting]
  if !env.artifact_found then
    { state := s, messages := msgs0 ++ [.recording_file_not_found] }
  else
    let file_name := py_str_opt filename ++ ".mp4"
    let step1 : RecordingState × List BotMessage :=
      match env.transcript_result with
      | none => (s, [])
      | some tpath =>
        let s1 := { s with transcript_path := some tpath }
        match env.github_result with
        | none => (s1, [])
        | some url =>
          ({ s1 with github_commit_url := some url },
           [.github_commit_msg
              (py_format (prompts_get prompts "github_commit" "Files committed to GitHub")
                "\x7bcommit_url\x7d" url)])
    let step2 : RecordingState × List BotMessage :=
      match env.youtube_result with
      | none => (step1.1, [])
      | some yid =>
        ({ step1.1 with youtube_upload_id := some yid },
         [.upload_success_msg
            (py_format (prompts_get prompts "upload_success" "Video uploaded")
              "\x7bvideo_url\x7d" ("https://youtube.com/watch?v=" ++ yid))])
    let s3_success := upload_to_s3 cfg env.s3_transfer
    let rclone_success := upload_to_rclone cfg env.rclone_transfer
    let msgs3 : List BotMessage :=
      if s3_success || rclone_success then
        [.cloud_upload_msg
           (py_format (prompts_get prompts "cloud_upload" "Uploaded to cloud storage")
             "\x7bfile_path\x7d" file_name)]
      else []
    { state := step2.1
      messages := msgs0 ++ step1.2 ++ step2.2 ++ msgs3 ++ [.processing_complete] }

/-- Renders a number on two digits, as `int(x):02d` does at line 548. -/
def two_digit (n : Nat) : String :=
  if n < 10 then "0" ++ toString n else toString n

/-- Embeds `handle_record_status` (lines 539-559): reports idle, or the
elapsed time plus flags for the populated post-processing fields; never
mutates the session record. -/
def handle_record_status (s : RecordingState) (now : Nat) :
    RecordingState × List BotMessage :=
  if !s.active then
    (s, [.status_not_active])
  else
    let total := now - s.start_time.getD 0
    let m := total / 60
    let sec := total % 60
    let t0 := "Recording active for " ++ two_digit m ++ ":" ++ two_digit sec
    let t1 := if s.youtube_upload_id.isSome then t0 ++ " | YouTube: Pending upload" else t0
    let t2 := if s.github_commit_url.isSome then t1 ++ " | GitHub: Committed" else t1
    let t3 := if s.transcript_path.isSome then t2 ++ " | Transcript: Generated" else t2
    (s, [.status_active t3])

/-- Embeds `handle_manual_upload` (lines 561-583): `recordings` is the list
of up to five most recent artifact names found on disk; the handler only
sends messages and never touches session state. -/
def handle_manual_upload (s : RecordingState) (recordings : List String) :
    RecordingState × List BotMessage :=
  if recordings.isEmpty then
    (s, [.no_recordings_found])
  else
    (s, [.available_recordings recordings, .upload_ready])

/-- Which subcommand handler the dispatcher invoked. -/
inductive Handler where
  | start
  | stop
  | status
  | upload
deriving Repr, DecidableEq

/-- Result of one run of the `record` command dispatcher, flattening the
effects of whichever handler ran. -/
structure CommandResult where
  state : RecordingState
  messages : List BotMessage
  handler_invoked : Option Handler
  obs_start_called : Bool
  obs_stop_called : Bool
  pipeline_spawned : Option (Option String)
  timer_scheduled : Option Int
deriving Repr, DecidableEq

/-- A `CommandResult` with no effect at all on state or collaborators. -/
def no_effect (s : RecordingState) (msgs : List BotMessage) : CommandResult :=
  { state := s
    messages := msgs
    handler_invoked := none
    obs_start_called := false
    obs_stop_called := false
    pipeline_spawned := none
    timer_scheduled := none }

/-- Embeds `record_command` (lines 364-385): returns silently when invoked
outside a guild, prints usage when no subcommand is given, lower-cases the
subcommand and dispatches to the four handlers, and reports unknown
subcommands. -/
def record_command (ctx : Ctx) (subcommand : Option String) (minutes : Int)
    (s : RecordingState) (prompts : List (String × String))
    (obs_start_ok obs_stop_ok : Bool) (now : Nat) (recordings : List String) :
    CommandResult :=
  if ctx.guild.isNone then
    no_effect s []
  else
    match subcommand with
    | none => no_effect s [.usage_help]
    | some sub =>
      let subl := sub.toLower
      if subl = "start" then
        let r := handle_record_start s ctx minutes prompts obs_start_ok now
        { state := r.state
          messages := r.messages
          handler_invoked := some .start
          obs_start_called := r.obs_start_called
          obs_stop_called := false
          pipeline_spawned := none
          timer_scheduled := r.timer_scheduled }
      else if subl = "stop" then
        let r := handle_record_stop s obs_stop_ok now
        { state := r.state
          messages := r.messages
          handler_invoked := some .stop
          obs_start_called := false
          obs_stop_called := r.obs_stop_called
          pipeline_spawned := r.pipeline_spawned
          timer_scheduled := none }
      else if subl = "status" then
        let r := handle_record_status s now
        { no_effect r.1 r.2 with handler_invoked := some .status }
      else if subl = "upload" then
        let r := handle_manual_upload s recordings
        { no_effect r.1 r.2 with handler_invoked := some .upload }
      else
        no_effect s [.unknown_subcommand subl]

/-!
Embedding of `update_env_file` from `scripts/configure-bot-name.py`
(lines 102-130). File contents are modelled as `List Char`; Python's
`content.split('\n')` and `'\n'.join(lines)` become `List.splitOn '\n'`
and `List.intercalate ['\n']`, which are mutually inverse exactly as the
Python pair is.
-/

/-- The prefix the replacement loop searches for (line 114). -/
def bot_name_prefix : List Char :=
  "DISCORD_BOT_NAME=".data

/-- The section header the insertion path searches for (line 123). -/
def discord_header : List Char :=
  "# Discord Bot Configuration".data

/-- The replacement line written at lines 115 and 125. -/
def bot_name_line (new_name : List Char) : List Char :=
  bot_name_prefix ++ new_name ++
    "  # ✨ EASY TO CUSTOMIZE: Change this to name your bot".data

/-- Python `line.strip()`: whitespace removed from both ends. -/
def strip_chars (l : List Char) : List Char :=
  ((l.dropWhile Char.isWhitespace).reverse.dropWhile Char.isWhitespace).reverse

/-- The replacement loop of lines 113-117: rewrite the first line starting
with `DISCORD_BOT_NAME=` and stop; the boolean is the `updated` flag. -/
def replace_bot_name_line (lines : List (List Char)) (new_name : List Char) :
    List (List Char) × Bool :=
  match lines with
  | [] => ([], false)
  | l :: ls =>
    if bot_name_prefix.isPrefixOf l then
      (bot_name_line new_name :: ls, true)
    else
      let r := replace_bot_name_line ls new_name
      (l :: r.1, r.2)

/-- The insertion loop of lines 120-126: insert the bot-name line right
after the first line whose stripped text is the section header. -/
def insert_bot_name_line (lines : List (List Char)) (new_name : List Char) :
    List (List Char) :=
  match lines with
  | [] => []
  | l :: ls =>
    if strip_chars l = discord_header then
      l :: bot_name_line new_name :: ls
    else
      l :: insert_bot_name_line ls new_name

/-- Embeds `update_env_file` (lines 102-130): split the file content on
newlines, replace the first `DISCORD_BOT_NAME=` line if one exists,
otherwise insert one after the `# Discord Bot Configuration` header, and
join the lines back with newlines. -/
def update_env_file (content : List Char) (new_name : List Char) : List Char :=
  let lines := content.splitOn '\n'
  let r := replace_bot_name_line lines new_name
  let lines2 := if r.2 then r.1 else insert_bot_name_line r.1 new_name
  List.intercalate ['\n'] lines2

/-! Concrete fixtures for witnesses and counterexamples. -/

/-- A guild invocation context. -/
def demo_ctx : Ctx :=
  { guild := some "studio-guild", channel_name := "general", author_display_name := "alice" }

/-- A direct-message invocation context: no guild. -/
def dm_ctx : Ctx :=
  { guild := none, channel_name := "dm", author_display_name := "alice" }

/-- Collaborator outcomes for a run in which every pipeline step succeeds
except the raw cloud transfers. -/
def demo_env_all_ok : PipelineEnv :=
  { artifact_found := true
    transcript_result := some "/opt/virtualstudio/transcripts/rec.txt"
    github_result := some "https://github.example/commit/1"
    youtube_result := some "upload_20240101_000000"
    s3_transfer := .error "NoCredentialsError"
    rclone_transfer := .error "rclone not installed" }

/-- Collaborator outcomes for a run in which transcript generation fails
but the video upload succeeds. -/
def demo_env_no_transcript : PipelineEnv :=
  { artifact_found := true
    transcript_result := none
    github_result := none
    youtube_result := some "upload_20240101_000001"
    s3_transfer := .error "NoCredentialsError"
    rclone_transfer := .error "rclone not installed" }

/-- Cloud configuration with neither an S3 bucket nor an rclone remote. -/
def no_cloud_cfg : CloudConfig :=
  { s3_bucket := none, rclone_remote := none }

/-- A session state reached by one successful start from the initial
state. -/
def demo_active_state : RecordingState :=
  (handle_record_start initial_recording_state demo_ctx 0 [] true 100).state

/-!
Schedule exhibiting a stale pipeline task interleaving with a second
session. The event loop is cooperative: the fire-and-forget
`process_recording_pipeline` task created by a stop (line 459) can run at
any later suspension point, in particular after a subsequent start.
-/

/-- Stop of the first session; spawns its pipeline task. -/
def trace_r2 : StopResult :=
  handle_record_stop demo_active_state true 200

/-- Second session started while the first session's pipeline task is
still pending. -/
def trace_s3 : RecordingState :=
  (handle_record_start trace_r2.state demo_ctx 0 [] true 300).state

/-- The stale pipeline task of the first session now runs, with the second
session active. -/
def trace_s4 : RecordingState :=
  (process_recording_pipeline trace_s3 (trace_r2.pipeline_spawned.getD none)
    demo_env_all_ok no_cloud_cfg []).state

/-! Claims. -/

/-- C1, counterexample: the claim that every pipeline step leaves the
session state record unchanged is false — a pipeline run whose transcript
step succeeds writes `recording_state['transcript_path']` (line 485), so
the state after the run differs from the state before it. -/
theorem pipeline_writes_live_session_state :
    (process_recording_pipeline initial_recording_state
        (some "2024-01-01_00-00-00") demo_env_all_ok no_cloud_cfg []).state
      ≠ initial_recording_state := by
  decide

/-- Frame lemma: a pipeline run leaves the core session fields untouched,
whatever the collaborator outcomes. -/
theorem pipeline_core_frame (s : RecordingState) (fn : Option String)
    (env : PipelineEnv) (cfg : CloudConfig) (prompts : List (String × String)) :
    (process_recording_pipeline s fn env cfg prompts).state.active = s.active ∧
    (process_recording_pipeline s fn env cfg prompts).state.start_time = s.start_time ∧
    (process_recording_pipeline s fn env cfg prompts).state.duration_minutes
      = s.duration_minutes ∧
    (process_recording_pipeline s fn env cfg prompts).state.recording_filename
      = s.recording_filename ∧
    (process_recording_pipeline s fn env cfg prompts).state.participants
      = s.participants := by
  rcases env with ⟨af, tr, gr, yr, s3t, rct⟩
  cases af <;> cases tr <;> cases gr <;> cases yr <;>
    simp [process_recording_pipeline]

/-- C1, amended: the pipeline reads only the captured filename context and
never modifies the core session fields — `active`, `start_time`,
`duration_minutes`, `recording_filename`, `participants` are identical
before and after any pipeline run; the only fields it may write are the
three post-processing fields. -/
theorem pipeline_preserves_core_session_fields (s : RecordingState)
    (fn : Option String) (env : PipelineEnv) (cfg : CloudConfig)
    (prompts : List (String × String)) :
    (process_recording_pipeline s fn env cfg prompts).state.active = s.active ∧
    (process_recording_pipeline s fn env cfg prompts).state.start_time = s.start_time ∧
    (process_recording_pipeline s fn env cfg prompts).state.duration_minutes
      = s.duration_minutes ∧
    (process_recording_pipeline s fn env cfg prompts).state.recording_filename
      = s.recording_filename ∧
    (process_recording_pipeline s fn env cfg prompts).state.participants
      = s.participants :=
  pipeline_core_frame s fn env cfg prompts

/-- C2, counterexample: the claim that after every successful stop all
post-processing fields are empty is false. Schedule: start, stop (spawns
the pipeline task), start again, the stale pipeline task runs and writes
`transcript_path` while the second session is active, then a successful
stop of the second session leaves `transcript_path` populated. -/
theorem stop_leaves_stale_transcript_field :
    trace_s4.active = true ∧
    (handle_record_stop trace_s4 true 400).state.active = false ∧
    (handle_record_stop trace_s4 true 400).state.transcript_path ≠ none := by
  decide

/-- C2, amended: a successful stop transition resets the core session
fields to their Idle defaults — `active := false`, `start_time := none`,
`duration_minutes := 0`, `recording_filename := none` — but leaves the
three post-processing fields (and `participants`) untouched; those are
cleared by the next successful start, not by stop. -/
theorem stop_resets_core_fields_only (s : RecordingState) (now : Nat)
    (h : s.active = true) :
    (handle_record_stop s true now).state.active = false ∧
    (handle_record_stop s true now).state.start_time = none ∧
    (handle_record_stop s true now).state.duration_minutes = 0 ∧
    (handle_record_stop s true now).state.recording_filename = none ∧
    (handle_record_stop s true now).state.transcript_path = s.transcript_path ∧
    (handle_record_stop s true now).state.github_commit_url = s.github_commit_url ∧
    (handle_record_stop s true now).state.youtube_upload_id = s.youtube_upload_id ∧
    (handle_record_stop s true now).state.participants = s.participants := by
  simp [handle_record_stop, h]

/-- C2, witness for the amended theorem at a concrete active state. -/
theorem stop_resets_core_fields_only_witness :
    (handle_record_stop demo_active_state true 7).state.active = false ∧
    (handle_record_stop demo_active_state true 7).state.start_time = none ∧
    (handle_record_stop demo_active_state true 7).state.duration_minutes = 0 ∧
    (handle_record_stop demo_active_state true 7).state.recording_filename = none ∧
    (handle_record_stop demo_active_state true 7).state.transcript_path
      = demo_active_state.transcript_path ∧
    (handle_record_stop demo_active_state true 7).state.github_commit_url
      = demo_active_state.github_commit_url ∧
    (handle_record_stop demo_active_state true 7).state.youtube_upload_id
      = demo_active_state.youtube_upload_id ∧
    (handle_record_stop demo_active_state true 7).state.participants
      = demo_active_state.participants :=
  stop_resets_core_fields_only demo_active_state 7 (by decide)

/-- C3: precondition violations are rejected with a warning, change no
session field, and invoke no recorder operation: a start while active
leaves the state unchanged and never calls the recorder's start; a stop
while idle leaves the state unchanged and never calls the recorder's
stop. -/
theorem preconditions_reject_without_effect (s : RecordingState) (ctx : Ctx)
    (minutes : Int) (prompts : List (String × String)) (ok : Bool) (now : Nat) :
    (s.active = true →
      (handle_record_start s ctx minutes prompts ok now).state = s ∧
      (handle_record_start s ctx minutes prompts ok now).obs_start_called = false ∧
      (handle_record_start s ctx minutes prompts ok now).messages
        = [.already_recording]) ∧
    (s.active = false →
      (handle_record_stop s ok now).state = s ∧
      (handle_record_stop s ok now).obs_stop_called = false ∧
      (handle_record_stop s ok now).messages = [.no_recording_in_progress]) := by
  constructor
  · intro h
    simp [handle_record_start, h]
  · intro h
    simp [handle_record_stop, h]

/-- C3, witness: both rejection branches at concrete states. -/
theorem preconditions_reject_without_effect_witness :
    (handle_record_start demo_active_state demo_ctx 0 [] true 7).state
      = demo_active_state ∧
    (handle_record_stop initial_recording_state true 7).state
      = initial_recording_state :=
  ⟨((preconditions_reject_without_effect demo_active_state demo_ctx 0 [] true 7).1
      (by decide)).1,
   ((preconditions_reject_without_effect initial_recording_state demo_ctx 0 [] true 7).2
      (by decide)).1⟩

/-- C5: the start transition is atomic with respect to recorder failure —
from any idle state, if the recorder's start operation reports failure the
handler reports the failure and every session field is unchanged, so
`active` remains false. -/
theorem start_failure_leaves_state_unchanged (s : RecordingState) (ctx : Ctx)
    (minutes : Int) (prompts : List (String × String)) (now : Nat)
    (h : s.active = false) :
    (handle_record_start s ctx minutes prompts false now).state = s ∧
    (handle_record_start s ctx minutes prompts false now).messages
      = [.obs_start_failed] ∧
    (handle_record_start s ctx minutes prompts false now).state.active = false := by
  simp [handle_record_start, h]

/-- C5, witness at the initial state. -/
theorem start_failure_leaves_state_unchanged_witness :
    (handle_record_start initial_recording_state demo_ctx 3 [] false 7).state
      = initial_recording_state ∧
    (handle_record_start initial_recording_state demo_ctx 3 [] false 7).messages
      = [.obs_start_failed] ∧
    (handle_record_start initial_recording_state demo_ctx 3 [] false 7).state.active
      = false :=
  start_failure_leaves_state_unchanged initial_recording_state demo_ctx 3 [] 7
    (by decide)

/-- Session states reachable from the initial state through the program's
operations: start, stop, status, the automatic-stop timer continuation,
and any run of the post-processing pipeline task, each with arbitrary
collaborator outcomes and inputs. -/
inductive Reachable : RecordingState → Prop where
  | init : Reachable initial_recording_state
  | cmd_start {s : RecordingState} (ctx : Ctx) (minutes : Int)
      (prompts : List (String × String)) (ok : Bool) (now : Nat) :
      Reachable s → Reachable (handle_record_start s ctx minutes prompts ok now).state
  | cmd_stop {s : RecordingState} (ok : Bool) (now : Nat) :
      Reachable s → Reachable (handle_record_stop s ok now).state
  | cmd_status {s : RecordingState} (now : Nat) :
      Reachable s → Reachable (handle_record_status s now).1
  | timer {s : RecordingState} (ok : Bool) (now : Nat) :
      Reachable s → Reachable ((timer_fire s ok now).1).state
  | pipeline {s : RecordingState} (fn : Option String) (env : PipelineEnv)
      (cfg : CloudConfig) (prompts : List (String × String)) :
      Reachable s → Reachable (process_recording_pipeline s fn env cfg prompts).state

/-- The status handler never mutates the session record. -/
theorem handle_record_status_state (s : RecordingState) (now : Nat) :
    (handle_record_status s now).1 = s := by
  unfold handle_record_status
  split <;> rfl

/-- C4: `startTime` is non-null if and only if `active` is true, in every
session state reachable through start, stop, status, the automatic-stop
timer, and the post-processing pipeline. -/
theorem start_time_iff_active (s : RecordingState) (h : Reachable s) :
    s.start_time ≠ none ↔ s.active = true := by
  induction h with
  | init => simp [initial_recording_state]
  | cmd_start ctx minutes prompts ok now _ ih =>
    unfold handle_record_start
    split
    · exact ih
    · split
      · exact ih
      · simp
  | cmd_stop ok now _ ih =>
    unfold handle_record_stop
    split
    · exact ih
    · split
      · exact ih
      · simp
  | cmd_status now _ ih =>
    rw [handle_record_status_state]
    exact ih
  | timer ok now _ ih =>
    unfold timer_fire
    split
    · unfold handle_record_stop
      split
      · exact ih
      · split
        · exact ih
        · simp
    · exact ih
  | pipeline fn env cfg prompts _ ih =>
    rename_i t _
    have hpres := pipeline_core_frame t fn env cfg prompts
    rw [hpres.1, hpres.2.1]
    exact ih

/-- C4, witness: the invariant at the initial state, via reachability. -/
theorem start_time_iff_active_witness :
    initial_recording_state.start_time ≠ none
      ↔ initial_recording_state.active = true :=
  start_time_iff_active initial_recording_state Reachable.init

/-- C6: pipeline step failures are mutually independent — in any run where
the artifact is found, transcript generation fails, and the video upload
succeeds, the upload identifier is still recorded in the session record and
the final processing-complete notification is still emitted. -/
theorem pipeline_steps_independent (s : RecordingState) (fn : Option String)
    (env : PipelineEnv) (cfg : CloudConfig) (prompts : List (String × String))
    (yid : String) (hfound : env.artifact_found = true)
    (htr : env.transcript_result = none)
    (hyt : env.youtube_result = some yid) :
    (process_recording_pipeline s fn env cfg prompts).state.youtube_upload_id
      = some yid ∧
    BotMessage.processing_complete
      ∈ (process_recording_pipeline s fn env cfg prompts).messages := by
  constructor
  · simp [process_recording_pipeline, hfound, htr, hyt]
  · simp only [process_recording_pipeline, hfound, htr, hyt]
    simp

/-- C6, witness: a concrete run with transcript failure and upload
success. -/
theorem pipeline_steps_independent_witness :
    (process_recording_pipeline initial_recording_state
        (some "2024-01-01_00-00-00") demo_env_no_transcript no_cloud_cfg
        []).state.youtube_upload_id = some "upload_20240101_000001" ∧
    BotMessage.processing_complete
      ∈ (process_recording_pipeline initial_recording_state
          (some "2024-01-01_00-00-00") demo_env_no_transcript no_cloud_cfg
          []).messages :=
  pipeline_steps_independent initial_recording_state
    (some "2024-01-01_00-00-00") demo_env_no_transcript no_cloud_cfg []
    "upload_20240101_000001" (by decide) (by decide) (by decide)

/-- The duration suffix rendered for five minutes. -/
theorem five_minutes_suffix :
    " for " ++ toString (5 : Int) ++ " minutes" = " for 5 minutes" := by
  decide

/-- C7: a successful start with `minutes = 0` emits the success message
with no duration suffix and schedules no automatic stop; with
`minutes = 5` the message carries the " for 5 minutes" suffix and an
automatic stop is scheduled after 5 minutes, whose firing triggers the
stop transition if and only if a session is still active at that moment. -/
theorem start_duration_suffix_and_timer (s s2 : RecordingState) (ctx : Ctx)
    (prompts : List (String × String)) (ok : Bool) (now now2 : Nat)
    (h : s.active = false) :
    (handle_record_start s ctx 0 prompts true now).messages
      = [.recording_started (render_start_msg prompts ctx.channel_name)] ∧
    (handle_record_start s ctx 0 prompts true now).timer_scheduled = none ∧
    (handle_record_start s ctx 5 prompts true now).messages
      = [.recording_started
          (render_start_msg prompts ctx.channel_name ++ " for 5 minutes")] ∧
    (handle_record_start s ctx 5 prompts true now).timer_scheduled = some 5 ∧
    ((timer_fire s2 ok now2).2 = true ↔ s2.active = true) := by
  refine ⟨?_, ?_, ?_, ?_, ?_⟩
  · simp [handle_record_start, h]
  · simp [handle_record_start, h]
  · simp [handle_record_start, h]
    rw [← five_minutes_suffix]
  · simp [handle_record_start, h]
  · cases h2 : s2.active <;> simp [timer_fire, h2]

/-- C7, witness: both start variants from the initial state, and the timer
firing against an active and the initial state. -/
theorem start_duration_suffix_and_timer_witness :
    (handle_record_start initial_recording_state demo_ctx 0 [] true 7).messages
      = [.recording_started (render_start_msg [] demo_ctx.channel_name)] ∧
    (handle_record_start initial_recording_state demo_ctx 0 [] true 7).timer_scheduled
      = none ∧
    (handle_record_start initial_recording_state demo_ctx 5 [] true 7).messages
      = [.recording_started
          (render_start_msg [] demo_ctx.channel_name ++ " for 5 minutes")] ∧
    (handle_record_start initial_recording_state demo_ctx 5 [] true 7).timer_scheduled
      = some 5 ∧
    ((timer_fire demo_active_state true 400).2 = true
      ↔ demo_active_state.active = true) :=
  start_duration_suffix_and_timer initial_recording_state demo_active_state
    demo_ctx [] true 7 400 (by decide)

/-- C8: with neither an S3 bucket nor an rclone remote configured, both
cloud upload calls return failure (they are total functions, so no
exception escapes), and no pipeline run emits a cloud-upload
notification. -/
theorem missing_cloud_config_no_upload (cfg : CloudConfig)
    (s : RecordingState) (fn : Option String) (env : PipelineEnv)
    (prompts : List (String × String)) (t : Except String Unit)
    (t2 : Except String Bool) (txt : String)
    (h1 : cfg.s3_bucket = none) (h2 : cfg.rclone_remote = none) :
    upload_to_s3 cfg t = false ∧
    upload_to_rclone cfg t2 = false ∧
    BotMessage.cloud_upload_msg txt
      ∉ (process_recording_pipeline s fn env cfg prompts).messages := by
  refine ⟨by simp [upload_to_s3, h1], by simp [upload_to_rclone, h2], ?_⟩
  rcases env with ⟨af, tr, gr, yr, s3t, rct⟩
  cases af <;> cases tr <;> cases gr <;> cases yr <;>
    simp [process_recording_pipeline, upload_to_s3, upload_to_rclone, h1, h2]

/-- C8, witness at a concrete unconfigured deployment. -/
theorem missing_cloud_config_no_upload_witness :
    upload_to_s3 no_cloud_cfg (.ok ()) = false ∧
    upload_to_rclone no_cloud_cfg (.ok true) = false ∧
    BotMessage.cloud_upload_msg "Uploaded to cloud storage"
      ∉ (process_recording_pipeline initial_recording_state
          (some "2024-01-01_00-00-00") demo_env_all_ok no_cloud_cfg
          []).messages :=
  missing_cloud_config_no_upload no_cloud_cfg initial_recording_state
    (some "2024-01-01_00-00-00") demo_env_all_ok [] (.ok ()) (.ok true)
    "Uploaded to cloud storage" (by decide) (by decide)

/-- C9: a record command invoked outside a guild is silently ignored —
no message is sent, no subcommand handler runs, no collaborator is called,
no pipeline or timer task is created, and the session state is unchanged,
for every subcommand and argument. -/
theorem dm_commands_ignored (ctx : Ctx) (subcommand : Option String)
    (minutes : Int) (s : RecordingState) (prompts : List (String × String))
    (ok1 ok2 : Bool) (now : Nat) (recordings : List String)
    (h : ctx.guild = none) :
    (record_command ctx subcommand minutes s prompts ok1 ok2 now recordings).state
      = s ∧
    (record_command ctx subcommand minutes s prompts ok1 ok2 now recordings).messages
      = [] ∧
    (record_command ctx subcommand minutes s prompts ok1 ok2 now
        recordings).handler_invoked = none ∧
    (record_command ctx subcommand minutes s prompts ok1 ok2 now
        recordings).obs_start_called = false ∧
    (record_command ctx subcommand minutes s prompts ok1 ok2 now
        recordings).obs_stop_called = false ∧
    (record_command ctx subcommand minutes s prompts ok1 ok2 now
        recordings).pipeline_spawned = none ∧
    (record_command ctx subcommand minutes s prompts ok1 ok2 now
        recordings).timer_scheduled = none := by
  simp [record_command, no_effect, h]

/-- C9, witness: a concrete DM invocation of `record stop`. -/
theorem dm_commands_ignored_witness :
    (record_command dm_ctx (some "stop") 0 demo_active_state [] true true 7
        []).state = demo_active_state ∧
    (record_command dm_ctx (some "stop") 0 demo_active_state [] true true 7
        []).messages = [] ∧
    (record_command dm_ctx (some "stop") 0 demo_active_state [] true true 7
        []).handler_invoked = none ∧
    (record_command dm_ctx (some "stop") 0 demo_active_state [] true true 7
        []).obs_start_called = false ∧
    (record_command dm_ctx (some "stop") 0 demo_active_state [] true true 7
        []).obs_stop_called = false ∧
    (record_command dm_ctx (some "stop") 0 demo_active_state [] true true 7
        []).pipeline_spawned = none ∧
    (record_command dm_ctx (some "stop") 0 demo_active_state [] true true 7
        []).timer_scheduled = none :=
  dm_commands_ignored dm_ctx (some "stop") 0 demo_active_state [] true true 7
    [] (by decide)

/-- Characterisation of the replacement loop: either the line list splits
around its first `DISCORD_BOT_NAME=` line, which alone is rewritten, or no
line matches and the list is returned unmodified with `updated = false`. -/
theorem replace_bot_name_line_spec (nn : List Char) (ls : List (List Char)) :
    (∃ pre m post, ls = pre ++ m :: post ∧
       bot_name_prefix.isPrefixOf m = true ∧
       (∀ l ∈ pre, bot_name_prefix.isPrefixOf l = false) ∧
       replace_bot_name_line ls nn = (pre ++ bot_name_line nn :: post, true))
    ∨ ((∀ l ∈ ls, bot_name_prefix.isPrefixOf l = false) ∧
       replace_bot_name_line ls nn = (ls, false)) := by
  induction ls with
  | nil =>
    right
    simp [replace_bot_name_line]
  | cons l ls ih =>
    by_cases h : bot_name_prefix.isPrefixOf l = true
    · left
      exact ⟨[], l, ls, rfl, h, by simp, by simp [replace_bot_name_line, h]⟩
    · rw [Bool.not_eq_true] at h
      rcases ih with ⟨pre, m, post, hls, hm, hpre, heq⟩ | ⟨hall, heq⟩
      · left
        refine ⟨l :: pre, m, post, by simp [hls], hm, ?_, ?_⟩
        · intro x hx
          rcases List.mem_cons.mp hx with rfl | hx
          · exact h
          · exact hpre x hx
        · simp [replace_bot_name_line, h, heq]
      · right
        refine ⟨?_, ?_⟩
        · intro x hx
          rcases List.mem_cons.mp hx with rfl | hx
          · exact h
          · exact hall x hx
        · simp [replace_bot_name_line, h, heq]

/-- Characterisation of the insertion loop: either the line list splits
around its first `# Discord Bot Configuration` header, after which exactly
one new line is inserted, or no header exists and the list is returned
unmodified. -/
theorem insert_bot_name_line_spec (nn : List Char) (ls : List (List Char)) :
    (∃ pre h post, ls = pre ++ h :: post ∧
       strip_chars h = discord_header ∧
       (∀ l ∈ pre, strip_chars l ≠ discord_header) ∧
       insert_bot_name_line ls nn = pre ++ h :: bot_name_line nn :: post)
    ∨ ((∀ l ∈ ls, strip_chars l ≠ discord_header) ∧
       insert_bot_name_line ls nn = ls) := by
  induction ls with
  | nil =>
    right
    simp [insert_bot_name_line]
  | cons l ls ih =>
    by_cases h : strip_chars l = discord_header
    · left
      exact ⟨[], l, ls, rfl, h, by simp, by simp [insert_bot_name_line, h]⟩
    · rcases ih with ⟨pre, hd, post, hls, hh, hpre, heq⟩ | ⟨hall, heq⟩
      · left
        refine ⟨l :: pre, hd, post, by simp [hls], hh, ?_, ?_⟩
        · intro x hx
          rcases List.mem_cons.mp hx with rfl | hx
          · exact h
          · exact hpre x hx
        · simp [insert_bot_name_line, h, heq]
      · right
        refine ⟨?_, ?_⟩
        · intro x hx
          rcases List.mem_cons.mp hx with rfl | hx
          · exact h
          · exact hall x hx
        · simp [insert_bot_name_line, h, heq]

/-- C10: `update_env_file` changes at most the `DISCORD_BOT_NAME` line of
the file. Splitting the content on newlines, exactly one of three cases
holds: the first line starting with `DISCORD_BOT_NAME=` is replaced and
every other line is kept verbatim and in order; no such line exists and a
single line is inserted directly after the first
`# Discord Bot Configuration` header, all original lines kept verbatim and
in order; or neither exists and the content is written back unchanged. -/
theorem update_env_file_frame (content new_name : List Char) :
    (∃ pre m post, content.splitOn '\n' = pre ++ m :: post ∧
       bot_name_prefix.isPrefixOf m = true ∧
       (∀ l ∈ pre, bot_name_prefix.isPrefixOf l = false) ∧
       update_env_file content new_name
         = List.intercalate ['\n'] (pre ++ bot_name_line new_name :: post))
    ∨ (∃ pre h post,
       (∀ l ∈ content.splitOn '\n', bot_name_prefix.isPrefixOf l = false) ∧
       content.splitOn '\n' = pre ++ h :: post ∧
       strip_chars h = discord_header ∧
       (∀ l ∈ pre, strip_chars l ≠ discord_header) ∧
       update_env_file content new_name
         = List.intercalate ['\n'] (pre ++ h :: bot_name_line new_name :: post))
    ∨ ((∀ l ∈ content.splitOn '\n', bot_name_prefix.isPrefixOf l = false) ∧
       (∀ l ∈ content.splitOn '\n', strip_chars l ≠ discord_header) ∧
       update_env_file content new_name = content) := by
  rcases replace_bot_name_line_spec new_name (content.splitOn '\n') with
    ⟨pre, m, post, hls, hm, hpre, heq⟩ | ⟨hall, heq⟩
  · left
    exact ⟨pre, m, post, hls, hm, hpre, by simp [update_env_file, heq]⟩
  · rcases insert_bot_name_line_spec new_name (content.splitOn '\n') with
      ⟨pre, hd, post, hls, hh, hpre, heq2⟩ | ⟨hall2, heq2⟩
    · right; left
      exact ⟨pre, hd, post, hall, hls, hh, hpre,
        by simp [update_env_file, heq, heq2]⟩
    · right; right
      refine ⟨hall, hall2, ?_⟩
      have : update_env_file content new_name
          = List.intercalate ['\n'] (content.splitOn '\n') := by
        simp [update_env_file, heq, heq2]
      rw [this]
      exact List.intercalate_splitOn content '\n'
